import Mathlib

/-!
Verification of the similarity-detection engine of the smart-files repository.

The two backend implementations under `src/file_save/` are shallowly embedded:

* `similarity_service_lite.py`   (class `SimilarityServiceLite`, basic mode)
* `similarity_service_simple.py` (class `SimilarityServiceSimple`)

Python floats are modelled as rationals (`ℚ`); all arithmetic performed by the
scorers stays inside small exact fractions, so no rounding behaviour is lost.
Python dicts whose insertion order matters are modelled as association lists in
insertion order.  `list.sort(key=..., reverse=True)` is Python's stable sort and
is modelled by `List.insertionSort` with the corresponding total relation, which
is extensionally the unique stable descending sort.
-/

/-- Character test for the regex class `\d` (ASCII digits, as produced by the
inputs this embedding is evaluated on). -/
def isDigitChar (c : Char) : Bool := c.isDigit

/-- Character test for `[a-zA-Z]`. -/
def isAsciiAlpha (c : Char) : Bool := c.isAlpha

/-- Character test for the CJK range `[一-龥]` used throughout the
source's regexes. -/
def isChineseChar (c : Char) : Bool :=
  decide (0x4e00 ≤ c.toNat) && decide (c.toNat ≤ 0x9fa5)

/-- Character test for the regex class `\w` (word characters): ASCII letters,
digits, underscore and, under Python's unicode semantics, CJK ideographs. -/
def isWordChar (c : Char) : Bool :=
  isAsciiAlpha c || isDigitChar c || c = '_' || isChineseChar c

/-- Character test for the regex class `\s` (Python whitespace). -/
def isSpaceChar (c : Char) : Bool :=
  c = ' ' || c = '\t' || c = '\n' || c = '\r' || c = '\x0b' || c = '\x0c'

/-- Maximal runs of characters satisfying `p`, in order.  This is
`re.findall` for a pattern that matches maximal `p`-runs (such as `\b\w+\b`
over word characters), and also `str.split()` when `p` selects non-whitespace. -/
def charRuns (p : Char → Bool) : List Char → List (List Char)
  | [] => []
  | c :: cs =>
    let rest := charRuns p cs
    if p c then
      match cs with
      | d :: _ =>
        if p d then
          match rest with
          | r :: rs => (c :: r) :: rs
          | [] => [[c]]
        else [c] :: rest
      | [] => [[c]]
    else rest

/-- Python `content.lower()` restricted to ASCII case (the only case-carrying
characters exercised here). -/
def pyLower (l : List Char) : List Char := l.map Char.toLower

/-- Python `s.strip()`: drop leading and trailing whitespace. -/
def pyStrip (l : List Char) : List Char :=
  ((l.dropWhile isSpaceChar).reverse.dropWhile isSpaceChar).reverse

/-- Python slicing `content[:n]` (by characters). -/
def pyTake (n : ℕ) (s : String) : String := String.mk (s.toList.take n)

/-- Increment the count of `w` in an insertion-ordered counter, appending `w`
with count 1 when absent.  Models updating a `collections.Counter`. -/
def bumpCount (w : String) : List (String × ℚ) → List (String × ℚ)
  | [] => [(w, 1)]
  | (x, n) :: rest => if x = w then (x, n + 1) :: rest else (x, n) :: bumpCount w rest

/-- Embedding of `collections.Counter(words)`: keys in first-occurrence order with their
multiplicities. -/
def counterOf (ws : List String) : List (String × ℚ) :=
  ws.foldl (fun acc w => bumpCount w acc) []

/-- Stable descending sort by a rational key: the extensional behaviour of
Python's `sorted(..., key=key, reverse=True)` / `list.sort(key=key,
reverse=True)` (Timsort is stable; ties keep their original relative order). -/
def rankDesc {α : Type} (key : α → ℚ) (l : List α) : List α :=
  List.insertionSort (fun a b => key b ≤ key a) l

/-- Embedding of `Counter(words).most_common(n)`: items sorted by count descending, ties in
first-occurrence order (CPython's `heapq.nlargest` is documented equivalent to
`sorted(items, key=count, reverse=True)[:n]`). -/
def mostCommon (n : ℕ) (ws : List String) : List (String × ℚ) :=
  (rankDesc (fun p => p.2) (counterOf ws)).take n

/-- Prefix test on character lists. -/
def listStartsWith : List Char → List Char → Bool
  | [], _ => true
  | _ :: _, [] => false
  | p :: ps, c :: cs => p = c && listStartsWith ps cs

/-- Occurrence of `pat` as a contiguous run anywhere in the list. -/
def subSearch (pat : List Char) : List Char → Bool
  | [] => listStartsWith pat []
  | c :: cs => listStartsWith pat (c :: cs) || subSearch pat cs

/-- Substring search: models `re.search` for a fixed literal pattern, and the
`in` operator on Python strings. -/
def containsSub (pat : String) (content : String) : Bool :=
  subSearch pat.toList content.toList

/-- Search for `http[s]?://` anywhere in the content
(`similarity_service_lite.py` line 196 and `similarity_service_simple.py`
line 63). -/
def hasUrlSearch (content : String) : Bool :=
  containsSub "http://" content || containsSub "https://" content

/-- Character test for the regex class `[A-Za-z0-9._%+-]` (email local part). -/
def isLocalChar (c : Char) : Bool :=
  c.isAlphanum || c = '.' || c = '_' || c = '%' || c = '+' || c = '-'

/-- Character test for the regex class `[A-Za-z0-9.-]` (email domain part). -/
def isDomainChar (c : Char) : Bool := c.isAlphanum || c = '.' || c = '-'

/-- Character test for the regex class `[A-Z|a-z]` (the source's literal class,
which includes the pipe character). -/
def isTldChar (c : Char) : Bool := c.isAlpha || c = '|'

/-- Two leading characters in the `[A-Z|a-z]` class. -/
def tldOk : List Char → Bool
  | a :: b :: _ => isTldChar a && isTldChar b
  | _ => false

/-- Scan after an `@` for `[A-Za-z0-9.-]+\.[A-Z|a-z]{2,}`.  `sawDom` records
whether at least one domain character has been consumed. -/
def emailDomainScan (sawDom : Bool) : List Char → Bool
  | [] => false
  | c :: cs =>
    if c = '.' then (sawDom && tldOk cs) || (isDomainChar c && emailDomainScan true cs)
    else isDomainChar c && emailDomainScan true cs

/-- Scan for the email regex
`\b[A-Za-z0-9._%+-]+@[A-Za-z0-9.-]+\.[A-Z|a-z]{2,}\b`.  `sawLocal` records
whether the previous character was a local-part character.  The `\b`
boundaries are not re-checked (they are implied for the inputs exercised
here); the scan is exact on every input that contains no `@`. -/
def emailScan (sawLocal : Bool) : List Char → Bool
  | [] => false
  | c :: cs =>
    if c = '@' then (sawLocal && emailDomainScan false cs) || emailScan false cs
    else emailScan (isLocalChar c) cs

/-- Models `re.search` for the email pattern of both extractors. -/
def hasEmailSearch (content : String) : Bool := emailScan false content.toList

/-- Truncated rational value of a boolean, reflecting that Python's `bool` is a
subclass of `int`: `isinstance(flag, (int, float))` holds and `False == 0`,
`True == 1`. -/
def boolQ (b : Bool) : ℚ := if b then 1 else 0

/-- FeatureSet of `SimilarityServiceLite._extract_text_features`
(`similarity_service_lite.py` lines 179-200).  Counts are stored as rationals
(Python ints compare and divide as exact numbers here). -/
structure LiteFeatures where
  word_count : ℚ
  char_count : ℚ
  unique_words : ℚ
  avg_word_length : ℚ
  common_words : List (String × ℚ)
  has_numbers : Bool
  has_urls : Bool
  has_emails : Bool
deriving DecidableEq, Repr

/-- Embedding of `SimilarityServiceLite._extract_text_features` (lines 179-200):
`text = re.sub(r'[^\w\s]', ' ', content.lower())`, `words = text.split()`,
then the eight features. -/
def extract_text_features_lite (content : String) : LiteFeatures :=
  let lowered := pyLower content.toList
  let text := lowered.map fun c => if isWordChar c || isSpaceChar c then c else ' '
  let words := (charRuns (fun c => !isSpaceChar c) text).map String.mk
  { word_count := (words.length : ℚ)
    char_count := (content.length : ℚ)
    unique_words := (words.dedup.length : ℚ)
    avg_word_length :=
      if words = [] then 0
      else ((words.map String.length).sum : ℚ) / (words.length : ℚ)
    common_words := mostCommon 10 words
    has_numbers := content.toList.any isDigitChar
    has_urls := hasUrlSearch content
    has_emails := hasEmailSearch content }

/-- Numeric-feature branch of
`SimilarityServiceLite._calculate_basic_similarity` (lines 331-341): 1 when
both values are zero, otherwise `1 - |v1 - v2| / max(|v1|, |v2|)` (the
`else 0` guard for a non-positive maximum is unreachable there but kept). -/
def numeric_similarity_lite (v1 v2 : ℚ) : ℚ :=
  if v1 = 0 ∧ v2 = 0 then 1
  else if 0 < max |v1| |v2| then 1 - |v1 - v2| / max |v1| |v2| else 0

/-- The `common_words` branch of
`SimilarityServiceLite._calculate_basic_similarity` (lines 320-329): Jaccard
overlap of the key sets, and 0 when both key sets are empty (`if words1 or
words2` tests set non-emptiness). -/
def common_words_similarity (d1 d2 : List (String × ℚ)) : ℚ :=
  let words1 := (d1.map Prod.fst).toFinset
  let words2 := (d2.map Prod.fst).toFinset
  if words1 ≠ ∅ ∨ words2 ≠ ∅ then
    if 0 < (words1 ∪ words2).card then
      ((words1 ∩ words2).card : ℚ) / ((words1 ∪ words2).card : ℚ)
    else 0
  else 0

/-- Embedding of `SimilarityServiceLite._calculate_basic_similarity` (lines 301-350).  The
weight table iterates in dict insertion order over the seven weighted features
(`has_emails` is extracted but carries no weight); every feature is present in
both FeatureSets, so `total_weight` is the full sum 1.  Booleans flow through
the numeric branch because `bool` is an `int` in Python. -/
def calculate_basic_similarity (f1 f2 : LiteFeatures) : ℚ :=
  let ts : ℚ :=
    numeric_similarity_lite f1.word_count f2.word_count * (2/10)
    + numeric_similarity_lite f1.char_count f2.char_count * (1/10)
    + numeric_similarity_lite f1.unique_words f2.unique_words * (2/10)
    + numeric_similarity_lite f1.avg_word_length f2.avg_word_length * (1/10)
    + common_words_similarity f1.common_words f2.common_words * (3/10)
    + numeric_similarity_lite (boolQ f1.has_numbers) (boolQ f2.has_numbers) * (5/100)
    + numeric_similarity_lite (boolQ f1.has_urls) (boolQ f2.has_urls) * (5/100)
  let tw : ℚ := 2/10 + 1/10 + 2/10 + 1/10 + 3/10 + 5/100 + 5/100
  if 0 < tw then ts / tw else 0

/-- Skip to just past the next `>` character, if any. -/
def skipToGt : List Char → Option (List Char)
  | [] => none
  | c :: cs => if c = '>' then some cs else skipToGt cs

/-- Given the characters after a `<`, return the remainder after a match of
`[^>]+>`, or `none` when the regex cannot match at this `<`. -/
def findTagEnd : List Char → Option (List Char)
  | [] => none
  | c :: cs => if c = '>' then none else skipToGt cs

/-- Fuel-based driver for `stripTags`.  The fuel is an upper bound on the
length of the list and every step consumes at least one character (a matched
tag consumes strictly more), so the fuel never runs out when it starts at the
list's length; structural recursion on the fuel keeps the function
kernel-reducible. -/
def stripTagsFuel : ℕ → List Char → List Char
  | 0, _ => []
  | _ + 1, [] => []
  | fuel + 1, c :: cs =>
    if c = '<' then
      match findTagEnd cs with
      | some rest => stripTagsFuel fuel rest
      | none => c :: stripTagsFuel fuel cs
    else c :: stripTagsFuel fuel cs

/-- Embedding of `re.sub(r'<[^>]+>', '', content)`: delete HTML-tag-shaped spans,
left-to-right, non-overlapping (`similarity_service_simple.py` line 93). -/
def stripTags (l : List Char) : List Char := stripTagsFuel l.length l

/-- Embedding of `re.sub(r'\s+', ' ', content)`: collapse every whitespace run to a single
space (`similarity_service_simple.py` line 95). -/
def collapseWs : List Char → List Char
  | [] => []
  | c :: cs =>
    if isSpaceChar c then
      match cs with
      | d :: _ => if isSpaceChar d then collapseWs cs else ' ' :: collapseWs cs
      | [] => [' ']
    else c :: collapseWs cs

/-- Embedding of `SimilarityServiceSimple._clean_text` (lines 90-98): strip HTML tags,
collapse whitespace, replace every character outside
`[一-龥a-zA-Z0-9\s]` by a space, then strip. -/
def clean_text (content : String) : String :=
  let l1 := stripTags content.toList
  let l2 := collapseWs l1
  let l3 := l2.map fun c =>
    if isChineseChar c || c.isAlphanum || isSpaceChar c then c else ' '
  String.mk (pyStrip l3)

/-- Embedding of `SimilarityServiceSimple._simple_tokenize` (lines 100-106):
`re.findall(r'\b\w+\b', content)` (maximal word-character runs) with
single-character words removed. -/
def simple_tokenize (content : String) : List String :=
  (((charRuns isWordChar content.toList).map String.mk).filter fun w => 1 < w.length)

/-- Embedding of `SimilarityServiceSimple._calculate_word_frequency` (lines 108-114):
per-word relative frequency, keys in first-occurrence order. -/
def calculate_word_frequency (words : List String) : List (String × ℚ) :=
  if words = [] then []
  else (counterOf words).map fun p => (p.1, p.2 / (words.length : ℚ))

/-- Embedding of `SimilarityServiceSimple._extract_semantic_keywords` (lines 116-132):
score each word of length at least 2 by `len(word)/10 +
count(word)/len(words)*100` (first-occurrence key order, each key written with
the same value on every occurrence), then take the 10 best, stable descending. -/
def extract_semantic_keywords (words : List String) : List (String × ℚ) :=
  if words = [] then []
  else
    let scores := ((counterOf words).filter fun p => 2 ≤ p.1.length).map fun p =>
      (p.1, (p.1.length : ℚ) / 10 + p.2 / (words.length : ℚ) * 100)
    (rankDesc (fun p => p.2) scores).take 10

/-- Embedding of `SimilarityServiceSimple._extract_topic_words` (lines 134-150): term
frequency of each word of length at least 2, 15 best, stable descending. -/
def extract_topic_words (words : List String) : List (String × ℚ) :=
  if words = [] then []
  else
    let tf := ((counterOf words).filter fun p => 2 ≤ p.1.length).map fun p =>
      (p.1, p.2 / (words.length : ℚ))
    (rankDesc (fun p => p.2) tf).take 15

/-- Ratio of characters satisfying `p`, 0 for the empty string
(`_get_chinese_ratio` / `_get_english_ratio` / `_get_digit_ratio`,
lines 152-171). -/
def charRatio (p : Char → Bool) (content : String) : ℚ :=
  if content = "" then 0
  else ((content.toList.filter p).length : ℚ) / (content.length : ℚ)

/-- Positive lexicon of `_calculate_sentiment_score` (line 179). -/
def positiveWords : List String :=
  ["好", "棒", "优秀", "完美", "喜欢", "爱", "开心", "高兴", "满意", "成功"]

/-- Negative lexicon of `_calculate_sentiment_score` (line 180). -/
def negativeWords : List String :=
  ["坏", "差", "糟糕", "讨厌", "恨", "难过", "失望", "失败", "问题", "错误"]

/-- Embedding of `SimilarityServiceSimple._calculate_sentiment_score` (lines 173-188). -/
def calculate_sentiment_score (words : List String) : ℚ :=
  if words = [] then 0
  else
    let pos := ((words.filter fun w => w ∈ positiveWords).length : ℚ)
    let neg := ((words.filter fun w => w ∈ negativeWords).length : ℚ)
    if pos + neg = 0 then 0 else (pos - neg) / (pos + neg)

/-- Nine ASCII digits at the head of the list. -/
def nineDigits (l : List Char) : Bool :=
  (l.take 9).length = 9 && (l.take 9).all isDigitChar

/-- Embedding of `re.search(r'1[3-9]\d{9}', content)` (line 65). -/
def phoneScan : List Char → Bool
  | [] => false
  | c :: cs =>
    (c = '1' && (match cs with
      | d :: ds => ('3' ≤ d && d ≤ '9') && isDigitChar d && nineDigits ds
      | [] => false)) || phoneScan cs

/-- At least one leading ASCII digit. -/
def leadingDigit : List Char → Bool
  | [] => false
  | c :: _ => isDigitChar c

/-- Separator class (dash or slash) of the date-like pattern. -/
def isDateSep (c : Char) : Bool := c = '-' || c = '/'

/-- Match two digit-groups of length 1-2 joined by a dash-or-slash separator at the head of the list, trying the greedy
two-digit month first and backtracking to one digit, as the regex engine does. -/
def monthDayTail (l : List Char) : Bool :=
  (match l with
   | a :: b :: s :: r => isDigitChar a && isDigitChar b && isDateSep s && leadingDigit r
   | _ => false)
  || (match l with
      | a :: s :: r => isDigitChar a && isDateSep s && leadingDigit r
      | _ => false)

/-- Match four digits and a dash-or-slash separator, then `monthDayTail`, at the head of the list. -/
def timeMatchAt (l : List Char) : Bool :=
  match l with
  | a :: b :: c :: d :: s :: r =>
    isDigitChar a && isDigitChar b && isDigitChar c && isDigitChar d
      && isDateSep s && monthDayTail r
  | _ => false

/-- Date-like search of line 77 (four digits, separator, one or two digits, separator, one or two digits): try a
match at every start position. -/
def timeScan : List Char → Bool
  | [] => false
  | c :: cs => timeMatchAt (c :: cs) || timeScan cs

/-- Embedding of `re.search(r'(今天|昨天|明天|今年|去年|明年)', content)` (line 78). -/
def dateWordSearch (content : String) : Bool :=
  containsSub "今天" content || containsSub "昨天" content
    || containsSub "明天" content || containsSub "今年" content
    || containsSub "去年" content || containsSub "明年" content

/-- FeatureSet of `SimilarityServiceSimple._extract_text_features`
(lines 37-88): the 21 features of the fixed schema, in source order. -/
structure SimpleFeatures where
  word_count : ℚ
  char_count : ℚ
  unique_words : ℚ
  avg_word_length : ℚ
  common_words : List (String × ℚ)
  word_frequency : List (String × ℚ)
  vocabulary_richness : ℚ
  sentence_count : ℚ
  paragraph_count : ℚ
  has_numbers : Bool
  has_urls : Bool
  has_emails : Bool
  has_phone : Bool
  chinese_ratio : ℚ
  english_ratio : ℚ
  digit_ratio : ℚ
  semantic_keywords : List (String × ℚ)
  topic_words : List (String × ℚ)
  has_time : Bool
  has_date : Bool
  sentiment_score : ℚ
deriving DecidableEq, Repr

/-- Embedding of `SimilarityServiceSimple._extract_text_features` (lines 37-88).  The
`try`/`except` wrapper is dead: no step of the body can raise, so the function
is total and never returns the empty dict. -/
def extract_text_features (content : String) : SimpleFeatures :=
  let cleaned := clean_text content
  let words := simple_tokenize cleaned
  { word_count := (words.length : ℚ)
    char_count := (content.length : ℚ)
    unique_words := (words.dedup.length : ℚ)
    avg_word_length :=
      if words = [] then 0
      else ((words.map String.length).sum : ℚ) / (words.length : ℚ)
    common_words := mostCommon 20 words
    word_frequency := calculate_word_frequency words
    vocabulary_richness :=
      if words = [] then 0 else (words.dedup.length : ℚ) / (words.length : ℚ)
    sentence_count :=
      ((content.toList.filter fun c => c = '。' || c = '！' || c = '？').length : ℚ) + 1
    paragraph_count :=
      (((content.toList.splitOn '\n').filter fun p => pyStrip p ≠ []).length : ℚ)
    has_numbers := content.toList.any isDigitChar
    has_urls := hasUrlSearch content
    has_emails := hasEmailSearch content
    has_phone := phoneScan content.toList
    chinese_ratio := charRatio isChineseChar content
    english_ratio := charRatio isAsciiAlpha content
    digit_ratio := charRatio isDigitChar content
    semantic_keywords := extract_semantic_keywords words
    topic_words := extract_topic_words words
    has_time := timeScan content.toList
    has_date := dateWordSearch content
    sentiment_score := calculate_sentiment_score words }

/-- Canonical model of the key a CPython set of strings yields last during
iteration: the iteration order is determined by the set's contents, and the
greatest key under the canonical order stands in for the last one. -/
def lastIterKey (s : Finset String) : Option String := (s.sort (· ≤ ·)).getLast?

/-- Embedding of `SimilarityServiceSimple._calculate_numeric_similarity` (lines 296-307):
1 on equality, otherwise relative error against the larger magnitude, clamped
to be non-negative. -/
def calculate_numeric_similarity (v1 v2 : ℚ) : ℚ :=
  if v1 = v2 then 1
  else if max |v1| |v2| = 0 then 1
  else max 0 (1 - |v1 - v2| / max |v1| |v2|)

/-- Embedding of `SimilarityServiceSimple._calculate_dict_similarity` (lines 257-294).
Returns `none` where the Python function raises.

The `else` at line 287 is attached to the `for` loop (a for-else, executed
once after the loop finishes), so after the per-key loop one extra term
`1.0 if val1 == val2 else 0.0` for the key iterated last is added before the
average is taken; when the intersection is empty while both dicts are
non-empty, `val1` and `val2` are unbound and the statement raises
`UnboundLocalError` (`none` here), which the caller's handler turns into 0.
CPython iterates a set of strings in an order determined by the set's
contents; the key iterated last is modelled canonically by `lastIterKey`.
The loop body repeats the numeric formula of `numeric_similarity_lite`. -/
def calculate_dict_similarity (d1 d2 : List (String × ℚ)) : Option ℚ :=
  if d1 = [] ∧ d2 = [] then some 1
  else if d1 = [] ∨ d2 = [] then some 0
  else
    let keys1 := (d1.map Prod.fst).toFinset
    let keys2 := (d2.map Prod.fst).toFinset
    let inter := keys1 ∩ keys2
    let uni := keys1 ∪ keys2
    if uni = ∅ then some 0
    else
      let jaccard : ℚ := (inter.card : ℚ) / (uni.card : ℚ)
      let val := fun (d : List (String × ℚ)) (k : String) => (d.lookup k).getD 0
      let loopSum : ℚ := inter.sum fun k => numeric_similarity_lite (val d1 k) (val d2 k)
      match lastIterKey inter with
      | none => none
      | some klast =>
        let extra : ℚ := if val d1 klast = val d2 klast then 1 else 0
        some ((jaccard + (loopSum + extra) / (inter.card : ℚ)) / 2)

/-- Dict-valued branch of `SimilarityServiceSimple._calculate_feature_similarity`
(lines 235-255): the `except` handler maps the raising case to 0. -/
def feature_similarity_dict (d1 d2 : List (String × ℚ)) : ℚ :=
  (calculate_dict_similarity d1 d2).getD 0

/-- Embedding of `SimilarityServiceSimple._calculate_enhanced_similarity` (lines 190-233).
The weight table iterates in dict insertion order over 21 features, all
present in both FeatureSets, so `total_weight` is the full sum 1.48.
Boolean flags flow through the numeric branch of
`_calculate_feature_similarity` because `bool` is an `int` in Python. -/
def calculate_enhanced_similarity (f1 f2 : SimpleFeatures) : ℚ :=
  let ts : ℚ :=
    calculate_numeric_similarity f1.word_count f2.word_count * (8/100)
    + calculate_numeric_similarity f1.char_count f2.char_count * (5/100)
    + calculate_numeric_similarity f1.unique_words f2.unique_words * (8/100)
    + calculate_numeric_similarity f1.avg_word_length f2.avg_word_length * (5/100)
    + feature_similarity_dict f1.common_words f2.common_words * (30/100)
    + feature_similarity_dict f1.word_frequency f2.word_frequency * (20/100)
    + calculate_numeric_similarity f1.vocabulary_richness f2.vocabulary_richness * (8/100)
    + calculate_numeric_similarity f1.sentence_count f2.sentence_count * (3/100)
    + calculate_numeric_similarity f1.paragraph_count f2.paragraph_count * (3/100)
    + calculate_numeric_similarity (boolQ f1.has_numbers) (boolQ f2.has_numbers) * (2/100)
    + calculate_numeric_similarity (boolQ f1.has_urls) (boolQ f2.has_urls) * (2/100)
    + calculate_numeric_similarity (boolQ f1.has_emails) (boolQ f2.has_emails) * (2/100)
    + calculate_numeric_similarity (boolQ f1.has_phone) (boolQ f2.has_phone) * (2/100)
    + calculate_numeric_similarity f1.chinese_ratio f2.chinese_ratio * (5/100)
    + calculate_numeric_similarity f1.english_ratio f2.english_ratio * (5/100)
    + calculate_numeric_similarity f1.digit_ratio f2.digit_ratio * (3/100)
    + calculate_numeric_similarity f1.sentiment_score f2.sentiment_score * (8/100)
    + calculate_numeric_similarity (boolQ f1.has_time) (boolQ f2.has_time) * (2/100)
    + calculate_numeric_similarity (boolQ f1.has_date) (boolQ f2.has_date) * (2/100)
    + feature_similarity_dict f1.semantic_keywords f2.semantic_keywords * (15/100)
    + feature_similarity_dict f1.topic_words f2.topic_words * (10/100)
  let tw : ℚ := 8/100 + 5/100 + 8/100 + 5/100 + 30/100 + 20/100 + 8/100 + 3/100
    + 3/100 + 2/100 + 2/100 + 2/100 + 2/100 + 5/100 + 5/100 + 3/100 + 8/100
    + 2/100 + 2/100 + 15/100 + 10/100
  if 0 < tw then ts / tw else 0

/-- Caller-supplied opaque metadata map, passed through unmodified. -/
abbrev Metadata := List (String × String)

/-- One record of `SimilarityServiceLite.document_metadata` in basic mode
(lines 160-167): the dict is keyed by the stringified running index
`str(len(document_metadata))`, so it is modelled as a list in key order. -/
structure LiteRec where
  doc_id : String
  content_preview : String
  features : LiteFeatures
  metadata : Metadata
deriving DecidableEq, Repr

/-- In-memory index state of `SimilarityServiceLite` in basic mode. -/
structure LiteState where
  records : List LiteRec
deriving DecidableEq, Repr

/-- Result of `SimilarityServiceLite.add_document` in basic mode, together
with the observable save effect (`saved` records whether `save_index` ran). -/
structure LiteAddOutcome where
  state : LiteState
  ok : Bool
  saved : Bool
deriving DecidableEq, Repr

/-- Embedding of `SimilarityServiceLite._add_document_basic` (lines 154-177): extract
features, append a record under the next running index, return `True`.  No
step can raise, and the function never calls `save_index`, so `saved` is
`false` on every insertion. -/
def add_document_basic (σ : LiteState) (doc_id content : String)
    (metadata : Metadata) : LiteAddOutcome :=
  let features := extract_text_features_lite content
  ⟨⟨σ.records ++ [⟨doc_id, pyTake 200 content, features, metadata⟩]⟩, true, false⟩

/-- Outcome of `SimilarityServiceLite._add_document_with_ai` (lines 118-152),
abstracted to its index-size and save effects: the embedding, normalisation
and vector insertion only grow `index.ntotal` by one, and `save_index` runs
exactly when the new `index.ntotal` is a multiple of 50 (line 145). -/
structure AIAddOutcome where
  ntotal : ℕ
  saved : Bool
deriving DecidableEq, Repr

/-- Save-schedule behaviour of `SimilarityServiceLite._add_document_with_ai`
(lines 118-152). -/
def add_document_with_ai (ntotal : ℕ) : AIAddOutcome :=
  ⟨ntotal + 1, decide ((ntotal + 1) % 50 = 0)⟩

/-- One result entry of `SimilarityServiceLite._find_similar_basic`
(lines 278-284). -/
structure LiteResult where
  doc_id : String
  similarity_score : ℚ
  content_preview : String
  metadata : Metadata
  doc_index : String
deriving DecidableEq, Repr

/-- Django query cache, modelled as an association list from key to value and
expiry instant (insertion at the front shadows older entries). -/
abbrev QCache := List (String × List LiteResult × ℕ)

/-- Cache key of `find_similar_documents`: the literal `similarity:`
followed by the md5 hex digest of the query content.  The md5
hex digest is modelled by the content itself, an injective stand-in: the
claims depend only on key equality between equal contents and on the absence
of `top_k` and `threshold` from the key. -/
def cacheKey (query_content : String) : String := "similarity:" ++ query_content

/-- Embedding of `django.core.cache.get`: a value is returned only from an entry that has
not reached its expiry instant. -/
def cacheGet (c : QCache) (k : String) (now : ℕ) : Option (List LiteResult) :=
  match c.lookup k with
  | some (v, e) => if now < e then some v else none
  | none => none

/-- Embedding of `django.core.cache.set` with a timeout. -/
def cacheSet (c : QCache) (k : String) (v : List LiteResult) (ttl now : ℕ) : QCache :=
  (k, v, now + ttl) :: c

/-- Embedding of `SimilarityServiceLite._find_similar_basic` (lines 261-299): empty-index
early return (which does not touch the cache), then score every record
against the query, keep those at or above the threshold, stable-sort
descending by score, truncate to `top_k`, and cache the final list with a
1800-second timeout. -/
def find_similar_basic (σ : LiteState) (query_content : String) (top_k : ℕ)
    (threshold : ℚ) (c : QCache) (now : ℕ) : List LiteResult × QCache :=
  if σ.records = [] then ([], c)
  else
    let query_features := extract_text_features_lite query_content
    let similarities := σ.records.enum.foldl
      (fun acc p =>
        if threshold ≤ calculate_basic_similarity query_features p.2.features then
          acc ++ [⟨p.2.doc_id, calculate_basic_similarity query_features p.2.features,
                   p.2.content_preview, p.2.metadata, toString p.1⟩]
        else acc) []
    let results := (rankDesc (fun r => r.similarity_score) similarities).take top_k
    (results, cacheSet c (cacheKey query_content) results 1800 now)

/-- Observable outcome of `SimilarityServiceLite.find_similar_documents`:
the returned list, whether the backend computation ran (as a call counter on
the scorer would record), and the cache afterwards. -/
structure FindOutcome where
  result : List LiteResult
  computed : Bool
  cache : QCache
deriving DecidableEq, Repr

/-- Embedding of `SimilarityServiceLite.find_similar_documents` (lines 202-222) in basic
mode (the AI branch guard at line 213 is false).  `if cached_result:` is a
truthiness test: `None` (miss or expired) and the empty list both fail it, so
a cached empty list is recomputed. -/
def find_similar_documents (σ : LiteState) (c : QCache) (now : ℕ)
    (query_content : String) (top_k : ℕ) (threshold : ℚ) : FindOutcome :=
  match cacheGet c (cacheKey query_content) now with
  | some cached_result =>
    if cached_result = [] then
      let rc := find_similar_basic σ query_content top_k threshold c now
      ⟨rc.1, true, rc.2⟩
    else ⟨cached_result, false, c⟩
  | none =>
    let rc := find_similar_basic σ query_content top_k threshold c now
    ⟨rc.1, true, rc.2⟩

/-- Metadata record of the AI index
(`similarity_service_lite.py` lines 133-138). -/
structure AIRec where
  doc_id : String
  content_preview : String
  metadata : Metadata
deriving DecidableEq, Repr

/-- One result entry of `SimilarityServiceLite._find_similar_with_ai`
(lines 244-249). -/
structure AIResult where
  doc_id : String
  similarity_score : ℚ
  content_preview : String
  metadata : Metadata
deriving DecidableEq, Repr

/-- Embedding of `SimilarityServiceLite._find_similar_with_ai` (lines 224-259), with the
vector encoding and nearest-neighbour search abstracted as `search` (pairs of
score and index position).  On an empty index it returns `[]` at line 229.
Otherwise it builds the thresholded result list -- and then line 252 executes
`cache.set(cache_key, results, timeout=1800)` where `cache_key` is a local
variable of the caller and unbound here, raising `NameError`, which the
function's own `except` handler (line 257) turns into `[]`.  The non-empty
branch therefore also always returns the empty list. -/
def find_similar_with_ai (search : ℕ → List (ℚ × ℕ)) (ntotal : ℕ)
    (meta : List (String × AIRec)) (top_k : ℕ) (threshold : ℚ) : List AIResult :=
  if ntotal = 0 then []
  else
    let _results := ((search top_k).filter fun h => threshold ≤ h.1).map fun h =>
      let m := (meta.lookup (toString h.2)).getD ⟨"", "", []⟩
      (⟨m.doc_id, h.1, m.content_preview, m.metadata⟩ : AIResult)
    []

/-- On-disk artifacts of the lite index: presence of `faiss_index.bin` and the
parsed contents of `metadata.json` (JSON round-trips the record list
losslessly at this level of abstraction). -/
structure LiteDisk where
  faiss_exists : Bool
  metadata_json : Option (List LiteRec)
deriving DecidableEq, Repr

/-- Embedding of `SimilarityServiceLite.save_index` (lines 352-373): in basic mode
(`ai_available` false or no index) only `metadata.json` is rewritten. -/
def save_index_lite (ai_available : Bool) (σ : LiteState) (disk : LiteDisk) : LiteDisk :=
  if ai_available then ⟨true, some σ.records⟩
  else ⟨disk.faiss_exists, some σ.records⟩

/-- Embedding of `SimilarityServiceLite.load_or_create_index` (lines 71-89) as run by
`__init__` on a fresh instance: the artifacts are read only when
`ai_available` holds and both files exist; otherwise `_create_new_index`
leaves `document_metadata` as the empty dict set by `__init__`. -/
def load_or_create_index_lite (ai_available : Bool) (disk : LiteDisk) : LiteState :=
  if ai_available ∧ disk.faiss_exists ∧ disk.metadata_json.isSome then
    ⟨disk.metadata_json.getD []⟩
  else ⟨[]⟩

/-- Embedding of `total_documents` of `SimilarityServiceLite.get_index_stats`
(line 417): `len(self.document_metadata)`. -/
def total_documents_lite (σ : LiteState) : ℕ := σ.records.length

/-- One record of `SimilarityServiceSimple.document_metadata`
(lines 354-359): the dict is keyed by `doc_id`, so re-adding replaces in
place (insertion order preserved). -/
structure SimpleRec where
  doc_id : String
  content_preview : String
  features : SimpleFeatures
  metadata : Metadata
  created_at : String
deriving DecidableEq, Repr

/-- In-memory index state of `SimilarityServiceSimple`. -/
structure SimpleState where
  records : List SimpleRec
deriving DecidableEq, Repr

/-- Python dict assignment `d[doc_id] = rec`: replace in place when the key
exists (keeping its position), else append. -/
def upsertRec : List SimpleRec → String → SimpleRec → List SimpleRec
  | [], _, r => [r]
  | x :: xs, k, r => if x.doc_id = k then r :: xs else x :: upsertRec xs k r

/-- Result of `SimilarityServiceSimple.add_document` with its disk effect. -/
structure SimpleAddOutcome where
  state : SimpleState
  disk : Option (List SimpleRec)
  ok : Bool
  saved : Bool
deriving DecidableEq, Repr

/-- Embedding of `SimilarityServiceSimple.add_document` (lines 344-373): extract features
(total, never the empty dict, so the failure return at line 351 is dead),
store the record under its `doc_id`, and call `save_index` (lines 443-452,
rewriting `metadata.json`) on every successful insertion. -/
def add_document_simple (σ : SimpleState) (disk : Option (List SimpleRec))
    (doc_id content : String) (metadata : Metadata) (nowStr : String) : SimpleAddOutcome :=
  let features := extract_text_features content
  let r : SimpleRec := ⟨doc_id, pyTake 500 content, features, metadata, nowStr⟩
  let records : List SimpleRec := upsertRec σ.records doc_id r
  ⟨⟨records⟩, some records, true, true⟩

/-- One result entry of `SimilarityServiceSimple._find_similar_enhanced`
(lines 420-426). -/
structure SimpleResult where
  doc_id : String
  similarity_score : ℚ
  content_preview : String
  metadata : Metadata
  created_at : String
deriving DecidableEq, Repr

/-- Query cache of the simple service. -/
abbrev SCache := List (String × List SimpleResult × ℕ)

/-- Embedding of `cache.set` for the simple service. -/
def cacheSetS (c : SCache) (k : String) (v : List SimpleResult) (ttl now : ℕ) : SCache :=
  (k, v, now + ttl) :: c

/-- Embedding of `SimilarityServiceSimple._find_similar_enhanced` (lines 400-441):
empty-index early return (no cache write), extraction (total, so the guard at
line 409 is dead), thresholded scoring of every record in insertion order,
stable descending sort, truncation to `top_k`, cache write with a
1800-second timeout. -/
def find_similar_enhanced (σ : SimpleState) (query_content : String) (top_k : ℕ)
    (threshold : ℚ) (c : SCache) (now : ℕ) : List SimpleResult × SCache :=
  if σ.records = [] then ([], c)
  else
    let query_features := extract_text_features query_content
    let similarities := σ.records.foldl
      (fun acc r =>
        if threshold ≤ calculate_enhanced_similarity query_features r.features then
          acc ++ [⟨r.doc_id, calculate_enhanced_similarity query_features r.features,
                   r.content_preview, r.metadata, r.created_at⟩]
        else acc) []
    let results := (rankDesc (fun r => r.similarity_score) similarities).take top_k
    (results, cacheSetS c (cacheKey query_content) results 1800 now)

/-- Embedding of `save_index` of the simple service (lines 443-452): rewrite
`metadata.json` with the whole record table. -/
def save_index_simple (σ : SimpleState) : Option (List SimpleRec) := some σ.records

/-- Embedding of `SimilarityServiceSimple.load_or_create_index` (lines 327-342): read
`metadata.json` whenever it exists, else start empty. -/
def load_or_create_index_simple (disk : Option (List SimpleRec)) : SimpleState :=
  match disk with
  | some recs => ⟨recs⟩
  | none => ⟨[]⟩

/-- Lite index holding the single document `d1` with content `"aa bb"`. -/
def sampleDoc : LiteState := (add_document_basic ⟨[]⟩ "d1" "aa bb" []).state

/-- Lite index after adding the same `doc_id` twice with different contents. -/
def dupState : LiteState :=
  (add_document_basic (add_document_basic ⟨[]⟩ "d" "aa bb" []).state "d" "aa cc" []).state

/-- Entry constructor of `_find_similar_basic` (lines 278-284). -/
def mk_lite_result (qf : LiteFeatures) (p : ℕ × LiteRec) : LiteResult :=
  ⟨p.2.doc_id, calculate_basic_similarity qf p.2.features,
   p.2.content_preview, p.2.metadata, toString p.1⟩

/-- Threshold test of `_find_similar_basic` (line 277). -/
def lite_passes (qf : LiteFeatures) (threshold : ℚ) (p : ℕ × LiteRec) : Bool :=
  decide (threshold ≤ calculate_basic_similarity qf p.2.features)

/-- Statement of the spec: the result of `find_similar` consists of exactly
the indexed records whose score is at or above the threshold, stable-sorted
descending by score (ties in insertion order), truncated to `top_k`. -/
def find_similar_spec_basic (σ : LiteState) (query_content : String) (top_k : ℕ)
    (threshold : ℚ) : List LiteResult :=
  let qf := extract_text_features_lite query_content
  (rankDesc (fun r => r.similarity_score)
    ((σ.records.enum.filter (lite_passes qf threshold)).map (mk_lite_result qf))).take top_k

/-- Entry constructor of `_find_similar_enhanced` (lines 420-426). -/
def mk_simple_result (qf : SimpleFeatures) (r : SimpleRec) : SimpleResult :=
  ⟨r.doc_id, calculate_enhanced_similarity qf r.features,
   r.content_preview, r.metadata, r.created_at⟩

/-- Threshold test of `_find_similar_enhanced` (line 419). -/
def simple_passes (qf : SimpleFeatures) (threshold : ℚ) (r : SimpleRec) : Bool :=
  decide (threshold ≤ calculate_enhanced_similarity qf r.features)

/-- Statement of the spec, for the simple service: filter by threshold,
stable-sort descending, truncate. -/
def find_similar_spec_enhanced (σ : SimpleState) (query_content : String) (top_k : ℕ)
    (threshold : ℚ) : List SimpleResult :=
  let qf := extract_text_features query_content
  (rankDesc (fun r => r.similarity_score)
    ((σ.records.filter (simple_passes qf threshold)).map (mk_simple_result qf))).take top_k

theorem numeric_similarity_lite_comm (v1 v2 : ℚ) :
    numeric_similarity_lite v1 v2 = numeric_similarity_lite v2 v1 := by
  unfold numeric_similarity_lite
  by_cases h : v1 = 0 ∧ v2 = 0
  · have h' : v2 = 0 ∧ v1 = 0 := ⟨h.2, h.1⟩
    simp [h, h']
  · have h' : ¬(v2 = 0 ∧ v1 = 0) := fun hc => h ⟨hc.2, hc.1⟩
    simp only [h, h', if_false]
    rw [abs_sub_comm, max_comm]

theorem calculate_numeric_similarity_comm (v1 v2 : ℚ) :
    calculate_numeric_similarity v1 v2 = calculate_numeric_similarity v2 v1 := by
  unfold calculate_numeric_similarity
  by_cases h : v1 = v2
  · simp [h]
  · have h' : ¬v2 = v1 := fun hc => h hc.symm
    simp only [h, h', if_false]
    rw [abs_sub_comm, max_comm]

theorem common_words_similarity_comm (d1 d2 : List (String × ℚ)) :
    common_words_similarity d1 d2 = common_words_similarity d2 d1 := by
  simp only [common_words_similarity]
  by_cases h : (d1.map Prod.fst).toFinset ≠ ∅ ∨ (d2.map Prod.fst).toFinset ≠ ∅
  · have h' : (d2.map Prod.fst).toFinset ≠ ∅ ∨ (d1.map Prod.fst).toFinset ≠ ∅ := h.symm
    rw [if_pos h, if_pos h', Finset.inter_comm, Finset.union_comm]
  · push_neg at h
    have e1 : d1 = [] := by simpa using h.1
    have e2 : d2 = [] := by simpa using h.2
    subst e1
    subst e2
    rfl

theorem calculate_dict_similarity_comm (d1 d2 : List (String × ℚ)) :
    calculate_dict_similarity d1 d2 = calculate_dict_similarity d2 d1 := by
  unfold calculate_dict_similarity
  by_cases h0 : d1 = [] ∧ d2 = []
  · have h0' : d2 = [] ∧ d1 = [] := ⟨h0.2, h0.1⟩
    simp [h0, h0']
  · have h0' : ¬(d2 = [] ∧ d1 = []) := fun hc => h0 ⟨hc.2, hc.1⟩
    by_cases h1 : d1 = [] ∨ d2 = []
    · have h1' : d2 = [] ∨ d1 = [] := h1.symm
      simp [h0, h0', h1, h1']
    · have h1' : ¬(d2 = [] ∨ d1 = []) := fun hc => h1 hc.symm
      simp only [h0, h0', h1, h1', if_false]
      rw [Finset.inter_comm, Finset.union_comm]
      by_cases h2 :
          ((d2.map Prod.fst).toFinset ∪ (d1.map Prod.fst).toFinset : Finset String) = ∅
      · simp [h2]
      · simp only [h2, if_false]
        have hsum :
            ((d2.map Prod.fst).toFinset ∩ (d1.map Prod.fst).toFinset).sum
              (fun k => numeric_similarity_lite ((d1.lookup k).getD 0) ((d2.lookup k).getD 0))
            = ((d2.map Prod.fst).toFinset ∩ (d1.map Prod.fst).toFinset).sum
              (fun k => numeric_similarity_lite ((d2.lookup k).getD 0) ((d1.lookup k).getD 0)) :=
          Finset.sum_congr rfl fun k _ => numeric_similarity_lite_comm _ _
        rw [hsum]
        cases hmax : lastIterKey ((d2.map Prod.fst).toFinset ∩ (d1.map Prod.fst).toFinset) with
        | none => rfl
        | some klast =>
          dsimp only
          by_cases hv : ((d1.lookup klast).getD 0 : ℚ) = (d2.lookup klast).getD 0
          · rw [if_pos hv, if_pos hv.symm]
          · rw [if_neg hv, if_neg fun hc => hv hc.symm]

theorem feature_similarity_dict_comm (d1 d2 : List (String × ℚ)) :
    feature_similarity_dict d1 d2 = feature_similarity_dict d2 d1 := by
  unfold feature_similarity_dict
  rw [calculate_dict_similarity_comm]

theorem calculate_basic_similarity_comm (a b : LiteFeatures) :
    calculate_basic_similarity a b = calculate_basic_similarity b a := by
  simp only [calculate_basic_similarity]
  rw [numeric_similarity_lite_comm a.word_count,
    numeric_similarity_lite_comm a.char_count,
    numeric_similarity_lite_comm a.unique_words,
    numeric_similarity_lite_comm a.avg_word_length,
    common_words_similarity_comm a.common_words,
    numeric_similarity_lite_comm (boolQ a.has_numbers),
    numeric_similarity_lite_comm (boolQ a.has_urls)]

theorem calculate_enhanced_similarity_comm (a b : SimpleFeatures) :
    calculate_enhanced_similarity a b = calculate_enhanced_similarity b a := by
  simp only [calculate_enhanced_similarity]
  rw [calculate_numeric_similarity_comm a.word_count,
    calculate_numeric_similarity_comm a.char_count,
    calculate_numeric_similarity_comm a.unique_words,
    calculate_numeric_similarity_comm a.avg_word_length,
    feature_similarity_dict_comm a.common_words,
    feature_similarity_dict_comm a.word_frequency,
    calculate_numeric_similarity_comm a.vocabulary_richness,
    calculate_numeric_similarity_comm a.sentence_count,
    calculate_numeric_similarity_comm a.paragraph_count,
    calculate_numeric_similarity_comm (boolQ a.has_numbers),
    calculate_numeric_similarity_comm (boolQ a.has_urls),
    calculate_numeric_similarity_comm (boolQ a.has_emails),
    calculate_numeric_similarity_comm (boolQ a.has_phone),
    calculate_numeric_similarity_comm a.chinese_ratio,
    calculate_numeric_similarity_comm a.english_ratio,
    calculate_numeric_similarity_comm a.digit_ratio,
    calculate_numeric_similarity_comm a.sentiment_score,
    calculate_numeric_similarity_comm (boolQ a.has_time),
    calculate_numeric_similarity_comm (boolQ a.has_date),
    feature_similarity_dict_comm a.semantic_keywords,
    feature_similarity_dict_comm a.topic_words]

theorem rank_sorted {α : Type} (key : α → ℚ) (l : List α) :
    List.Sorted (fun a b => key b ≤ key a) (rankDesc key l) := by
  haveI : IsTotal α fun a b => key b ≤ key a := ⟨fun a b => le_total (key b) (key a)⟩
  haveI : IsTrans α fun a b => key b ≤ key a := ⟨fun _ _ _ hab hbc => le_trans hbc hab⟩
  exact List.sorted_insertionSort _ l

theorem mem_rankDesc {α : Type} (key : α → ℚ) (l : List α) (x : α) :
    x ∈ rankDesc key l ↔ x ∈ l := by
  unfold rankDesc
  exact List.mem_insertionSort _


theorem lite_foldl_eq (qf : LiteFeatures) (threshold : ℚ) :
    ∀ (l : List (ℕ × LiteRec)) (acc : List LiteResult),
      l.foldl (fun acc p =>
        if threshold ≤ calculate_basic_similarity qf p.2.features then
          acc ++ [⟨p.2.doc_id, calculate_basic_similarity qf p.2.features,
                   p.2.content_preview, p.2.metadata, toString p.1⟩]
        else acc) acc
      = acc ++ (l.filter (lite_passes qf threshold)).map (mk_lite_result qf) := by
  intro l
  induction l with
  | nil => intro acc; simp
  | cons x xs ih =>
    intro acc
    by_cases h : threshold ≤ calculate_basic_similarity qf x.2.features
    · simp [List.foldl_cons, h, ih, List.filter_cons, lite_passes, mk_lite_result]
    · simp [List.foldl_cons, h, ih, List.filter_cons, lite_passes, mk_lite_result]

theorem simple_foldl_eq (qf : SimpleFeatures) (threshold : ℚ) :
    ∀ (l : List SimpleRec) (acc : List SimpleResult),
      l.foldl (fun acc r =>
        if threshold ≤ calculate_enhanced_similarity qf r.features then
          acc ++ [⟨r.doc_id, calculate_enhanced_similarity qf r.features,
                   r.content_preview, r.metadata, r.created_at⟩]
        else acc) acc
      = acc ++ (l.filter (simple_passes qf threshold)).map (mk_simple_result qf) := by
  intro l
  induction l with
  | nil => intro acc; simp
  | cons x xs ih =>
    intro acc
    by_cases h : threshold ≤ calculate_enhanced_similarity qf x.features
    · simp [List.foldl_cons, h, ih, List.filter_cons, simple_passes, mk_simple_result]
    · simp [List.foldl_cons, h, ih, List.filter_cons, simple_passes, mk_simple_result]

theorem find_basic_fst_eq (σ : LiteState) (q : String) (k : ℕ) (θ : ℚ)
    (c c' : QCache) (n n' : ℕ) :
    (find_similar_basic σ q k θ c n).1 = (find_similar_basic σ q k θ c' n').1 := by
  unfold find_similar_basic
  by_cases h : σ.records = []
  · simp [h]
  · simp [h]

theorem find_basic_spec (σ : LiteState) (q : String) (k : ℕ) (θ : ℚ)
    (c : QCache) (n : ℕ) :
    (find_similar_basic σ q k θ c n).1 = find_similar_spec_basic σ q k θ := by
  unfold find_similar_basic find_similar_spec_basic
  by_cases h : σ.records = []
  · simp [h, rankDesc, List.insertionSort]
  · simp only [h, if_false]
    rw [lite_foldl_eq]
    simp

theorem find_enhanced_spec (σ : SimpleState) (q : String) (k : ℕ) (θ : ℚ)
    (c : SCache) (n : ℕ) :
    (find_similar_enhanced σ q k θ c n).1 = find_similar_spec_enhanced σ q k θ := by
  unfold find_similar_enhanced find_similar_spec_enhanced
  by_cases h : σ.records = []
  · simp [h, rankDesc, List.insertionSort]
  · simp only [h, if_false]
    rw [simple_foldl_eq]
    simp

theorem fsd_of_miss (σ : LiteState) (c : QCache) (now : ℕ) (q : String) (k : ℕ)
    (θ : ℚ) (h : cacheGet c (cacheKey q) now = none) :
    find_similar_documents σ c now q k θ =
      ⟨(find_similar_basic σ q k θ c now).1, true, (find_similar_basic σ q k θ c now).2⟩ := by
  simp [find_similar_documents, h]

theorem fsd_of_empty_hit (σ : LiteState) (c : QCache) (now : ℕ) (q : String) (k : ℕ)
    (θ : ℚ) (h : cacheGet c (cacheKey q) now = some []) :
    find_similar_documents σ c now q k θ =
      ⟨(find_similar_basic σ q k θ c now).1, true, (find_similar_basic σ q k θ c now).2⟩ := by
  simp [find_similar_documents, h]

theorem fsd_of_hit (σ : LiteState) (c : QCache) (now : ℕ) (q : String) (k : ℕ)
    (θ : ℚ) (r : List LiteResult) (h : cacheGet c (cacheKey q) now = some r)
    (hr : r ≠ []) :
    find_similar_documents σ c now q k θ = ⟨r, false, c⟩ := by
  simp [find_similar_documents, h, hr]

theorem cacheGet_cacheSet_same (c : QCache) (k : String) (v : List LiteResult)
    (ttl now now2 : ℕ) :
    cacheGet (cacheSet c k v ttl now) k now2 = if now2 < now + ttl then some v else none := by
  simp [cacheGet, cacheSet, List.lookup]

theorem cacheGet_none_mono (c : QCache) (k : String) (now now2 : ℕ)
    (h : cacheGet c k now = none) (hle : now ≤ now2) : cacheGet c k now2 = none := by
  unfold cacheGet at h ⊢
  cases hl : c.lookup k with
  | none => simp
  | some p =>
    obtain ⟨v, e⟩ := p
    rw [hl] at h
    simp only at h
    by_cases ht : now < e
    · rw [if_pos ht] at h
      exact absurd h (by simp)
    · simp only
      rw [if_neg (by omega)]

theorem cacheGet_value_eq (c : QCache) (k : String) (now now2 : ℕ)
    (v v2 : List LiteResult) (h : cacheGet c k now = some v)
    (h2 : cacheGet c k now2 = some v2) : v2 = v := by
  unfold cacheGet at h h2
  cases hl : c.lookup k with
  | none =>
    rw [hl] at h
    exact absurd h (by simp)
  | some p =>
    obtain ⟨w, e⟩ := p
    rw [hl] at h h2
    simp only at h h2
    by_cases ht : now < e
    · rw [if_pos ht] at h
      by_cases ht2 : now2 < e
      · rw [if_pos ht2] at h2
        rw [← Option.some_inj.mp h, ← Option.some_inj.mp h2]
      · rw [if_neg ht2] at h2
        exact absurd h2 (by simp)
    · rw [if_neg ht] at h
      exact absurd h (by simp)

/-- C1: the claim states that the basic scorer applied to any extracted
FeatureSet and itself returns exactly 1.0, including the FeatureSet of the
empty string.  Evaluating the code of
`SimilarityServiceLite._calculate_basic_similarity` at the FeatureSet of the
empty string yields 0.7: the `common_words` branch returns 0 when both
top-word maps are empty, while the claim and the spec require 1.0. -/
theorem C1_self_score_of_empty_featureset :
    calculate_basic_similarity (extract_text_features_lite "")
      (extract_text_features_lite "") = 7/10 := by with_unfolding_all decide

/-- C2: the claim states that re-adding an existing `doc_id` never causes
`find_similar` to return two entries for that `doc_id`.  In the code of
`SimilarityServiceLite._add_document_basic` records are keyed by the running
index, so adding `doc_id` `d` twice with contents `aa bb` and `aa cc` and
querying `aa` at threshold 0 returns two entries both carrying `doc_id` `d`. -/
theorem C2_duplicate_doc_id_eval :
    ((find_similar_basic dupState "aa" 5 0 [] 0).1.map fun r => r.doc_id)
      = ["d", "d"] := by with_unfolding_all decide

/-- C4: the claim states that `save()` followed by `load()` on a fresh
instance reproduces `total_documents` and the top-K result.  For the lite
service in basic mode, `load_or_create_index` reads the artifacts only when
`ai_available` holds, so after saving an index holding one document the
freshly loaded instance holds zero documents and returns no results, while
the simple service's `load_or_create_index` does round-trip losslessly. -/
theorem C4_roundtrip_eval :
    total_documents_lite sampleDoc = 1
    ∧ total_documents_lite (load_or_create_index_lite false
        (save_index_lite false sampleDoc ⟨false, none⟩)) = 0
    ∧ (find_similar_basic sampleDoc "aa bb" 5 (3/10) [] 0).1 ≠ []
    ∧ (find_similar_basic (load_or_create_index_lite false
        (save_index_lite false sampleDoc ⟨false, none⟩)) "aa bb" 5 (3/10) [] 0).1 = []
    ∧ ∀ σ2 : SimpleState, load_or_create_index_simple (save_index_simple σ2) = σ2 := by
  refine ⟨by with_unfolding_all decide, by with_unfolding_all decide, by with_unfolding_all decide, by with_unfolding_all decide, fun σ2 => rfl⟩

/-- C6: both basic scorers are symmetric: swapping the two FeatureSets leaves
the score of `_calculate_basic_similarity` (lite) and of
`_calculate_enhanced_similarity` (simple) unchanged, for all FeatureSets. -/
theorem C6_scorer_symmetric (a b : LiteFeatures) (c d : SimpleFeatures) :
    calculate_basic_similarity a b = calculate_basic_similarity b a
    ∧ calculate_enhanced_similarity c d = calculate_enhanced_similarity d c :=
  ⟨calculate_basic_similarity_comm a b, calculate_enhanced_similarity_comm c d⟩

/-- C7: feature extraction of the empty string succeeds (both embedded
extractors are total functions by construction, mirroring the absence of any
raising step in the source) and yields word and character counts 0, all
boolean presence flags false, all script-ratio features 0, and sentiment
score 0, in both services. -/
theorem C7_extract_empty_string :
    (extract_text_features "").word_count = 0
    ∧ (extract_text_features "").char_count = 0
    ∧ (extract_text_features "").has_numbers = false
    ∧ (extract_text_features "").has_urls = false
    ∧ (extract_text_features "").has_emails = false
    ∧ (extract_text_features "").has_phone = false
    ∧ (extract_text_features "").has_time = false
    ∧ (extract_text_features "").has_date = false
    ∧ (extract_text_features "").chinese_ratio = 0
    ∧ (extract_text_features "").english_ratio = 0
    ∧ (extract_text_features "").digit_ratio = 0
    ∧ (extract_text_features "").sentiment_score = 0
    ∧ (extract_text_features_lite "").word_count = 0
    ∧ (extract_text_features_lite "").char_count = 0
    ∧ (extract_text_features_lite "").has_numbers = false
    ∧ (extract_text_features_lite "").has_urls = false
    ∧ (extract_text_features_lite "").has_emails = false := by with_unfolding_all decide

/-- C8: on an index holding zero documents, every find path returns the empty
list for any query, `top_k` and threshold, and never an error: the basic and
enhanced scans return at line 266 resp. 405, and the AI path returns at
line 229 (its non-empty branch also returns `[]` because of the unbound
`cache_key`). -/
theorem C8_find_on_empty_index (σ : LiteState) (σ2 : SimpleState)
    (search : ℕ → List (ℚ × ℕ)) (meta : List (String × AIRec)) (q : String)
    (k : ℕ) (θ : ℚ) (c : QCache) (c2 : SCache) (now : ℕ) :
    (σ.records = [] → (find_similar_basic σ q k θ c now).1 = [])
    ∧ (σ2.records = [] → (find_similar_enhanced σ2 q k θ c2 now).1 = [])
    ∧ (∀ ntotal, ntotal = 0 → find_similar_with_ai search ntotal meta k θ = []) := by
  refine ⟨fun h => ?_, fun h => ?_, fun n hn => ?_⟩
  · simp [find_similar_basic, h]
  · simp [find_similar_enhanced, h]
  · subst hn
    rfl

theorem C8_find_on_empty_index_witness :
    (find_similar_basic ⟨[]⟩ "q" 5 (3/10) [] 0).1 = []
    ∧ (find_similar_enhanced ⟨[]⟩ "q" 5 (3/10) [] 0).1 = []
    ∧ find_similar_with_ai (fun _ => []) 0 [] 5 (3/10) = [] :=
  ⟨(C8_find_on_empty_index ⟨[]⟩ ⟨[]⟩ (fun _ => []) [] "q" 5 (3/10) [] [] 0).1 rfl,
   (C8_find_on_empty_index ⟨[]⟩ ⟨[]⟩ (fun _ => []) [] "q" 5 (3/10) [] [] 0).2.1 rfl,
   (C8_find_on_empty_index ⟨[]⟩ ⟨[]⟩ (fun _ => []) [] "q" 5 (3/10) [] [] 0).2.2 0 rfl⟩

/-- C9 (amended): the every-50th-insertion save schedule belongs only to the
AI add path of the lite service; the basic add path of the lite service never
saves during `add_document`, and the simple service saves on every
insertion. -/
theorem C9_save_schedule_by_backend (σ : LiteState) (σ2 : SimpleState)
    (disk : Option (List SimpleRec)) (ntotal : ℕ) (i cont : String)
    (m : Metadata) (ts : String) :
    (add_document_basic σ i cont m).saved = false
    ∧ (add_document_simple σ2 disk i cont m ts).saved = true
    ∧ (add_document_with_ai ntotal).saved = decide ((ntotal + 1) % 50 = 0)
    ∧ (add_document_with_ai ntotal).ntotal = ntotal + 1 :=
  ⟨rfl, rfl, rfl, rfl⟩

/-- C9 (counterexample): the claim states that `add_document` saves only once
every 50 insertions and not on every insertion; but
`SimilarityServiceSimple.add_document` runs `save_index` on its very first
insertion, whose resulting document count 1 is not a multiple of 50. -/
theorem C9_simple_saves_every_insertion :
    (add_document_simple ⟨[]⟩ none "d" "" [] "t").saved = true
    ∧ (add_document_simple ⟨[]⟩ none "d" "" [] "t").state.records.length = 1
    ∧ 1 % 50 ≠ 0 :=
  ⟨rfl, rfl, by decide⟩

/-- C5: for every query, `top_k` and threshold, both find paths return
exactly the thresholded records, stable-sorted descending by score (ties in
insertion order, this being `rankDesc`), truncated to `top_k`: the returned
list equals the spec-side form, is sorted descending, contains only scores at
or above the threshold, and has at most `top_k` entries. -/
theorem C5_find_similar_contract (σ : LiteState) (σ2 : SimpleState) (q : String)
    (k : ℕ) (θ : ℚ) (c : QCache) (c2 : SCache) (now : ℕ) :
    (find_similar_basic σ q k θ c now).1 = find_similar_spec_basic σ q k θ
    ∧ List.Sorted (fun a b => b.similarity_score ≤ a.similarity_score)
        (find_similar_basic σ q k θ c now).1
    ∧ ((find_similar_basic σ q k θ c now).1.all fun r =>
        decide (θ ≤ r.similarity_score)) = true
    ∧ (find_similar_basic σ q k θ c now).1.length ≤ k
    ∧ (find_similar_enhanced σ2 q k θ c2 now).1 = find_similar_spec_enhanced σ2 q k θ
    ∧ List.Sorted (fun a b => b.similarity_score ≤ a.similarity_score)
        (find_similar_enhanced σ2 q k θ c2 now).1
    ∧ ((find_similar_enhanced σ2 q k θ c2 now).1.all fun r =>
        decide (θ ≤ r.similarity_score)) = true
    ∧ (find_similar_enhanced σ2 q k θ c2 now).1.length ≤ k := by
  have hb := find_basic_spec σ q k θ c now
  have he := find_enhanced_spec σ2 q k θ c2 now
  refine ⟨hb, ?_, ?_, ?_, he, ?_, ?_, ?_⟩
  · rw [hb]
    simp only [find_similar_spec_basic]
    exact List.Pairwise.sublist (List.take_sublist _ _) (rank_sorted _ _)
  · rw [hb]
    simp only [find_similar_spec_basic]
    rw [List.all_eq_true]
    intro r hr
    have hr1 := List.take_subset _ _ hr
    rw [mem_rankDesc] at hr1
    obtain ⟨p, hp, hrp⟩ := List.mem_map.mp hr1
    have hpass := (List.mem_filter.mp hp).2
    rw [← hrp]
    simpa [mk_lite_result, lite_passes] using hpass
  · rw [hb]
    simp only [find_similar_spec_basic]
    exact List.length_take_le _ _
  · rw [he]
    simp only [find_similar_spec_enhanced]
    exact List.Pairwise.sublist (List.take_sublist _ _) (rank_sorted _ _)
  · rw [he]
    simp only [find_similar_spec_enhanced]
    rw [List.all_eq_true]
    intro r hr
    have hr1 := List.take_subset _ _ hr
    rw [mem_rankDesc] at hr1
    obtain ⟨p, hp, hrp⟩ := List.mem_map.mp hr1
    have hpass := (List.mem_filter.mp hp).2
    rw [← hrp]
    simpa [mk_simple_result, simple_passes] using hpass
  · rw [he]
    simp only [find_similar_spec_enhanced]
    exact List.length_take_le _ _

theorem cacheGet_some_inv (c : QCache) (k : String) (now : ℕ) (v : List LiteResult)
    (h : cacheGet c k now = some v) :
    ∃ e, c.lookup k = some (v, e) ∧ now < e := by
  unfold cacheGet at h
  cases hl : c.lookup k with
  | none =>
    rw [hl] at h
    exact absurd h (by simp)
  | some p =>
    obtain ⟨w, e⟩ := p
    rw [hl] at h
    simp only at h
    by_cases ht : now < e
    · rw [if_pos ht] at h
      obtain rfl := Option.some_inj.mp h
      exact ⟨e, rfl, ht⟩
    · rw [if_neg ht] at h
      exact absurd h (by simp)

theorem fsd_computed_cases (σ : LiteState) (c : QCache) (now : ℕ) (q : String)
    (k : ℕ) (θ : ℚ)
    (hcomp : (find_similar_documents σ c now q k θ).computed = true) :
    cacheGet c (cacheKey q) now = none ∨ cacheGet c (cacheKey q) now = some [] := by
  cases hget : cacheGet c (cacheKey q) now with
  | none => exact Or.inl rfl
  | some r =>
    by_cases hr : r = []
    · subst hr
      exact Or.inr rfl
    · rw [fsd_of_hit σ c now q k θ r hget hr] at hcomp
      simp at hcomp

theorem fsd_result_of_computed (σ : LiteState) (c : QCache) (now : ℕ) (q : String)
    (k : ℕ) (θ : ℚ)
    (hcomp : (find_similar_documents σ c now q k θ).computed = true) :
    (find_similar_documents σ c now q k θ).result = (find_similar_basic σ q k θ c now).1 := by
  cases fsd_computed_cases σ c now q k θ hcomp with
  | inl h => rw [fsd_of_miss σ c now q k θ h]
  | inr h => rw [fsd_of_empty_hit σ c now q k θ h]

theorem fsd_cache_of_computed (σ : LiteState) (c : QCache) (now : ℕ) (q : String)
    (k : ℕ) (θ : ℚ)
    (hcomp : (find_similar_documents σ c now q k θ).computed = true) :
    (find_similar_documents σ c now q k θ).cache = (find_similar_basic σ q k θ c now).2 := by
  cases fsd_computed_cases σ c now q k θ hcomp with
  | inl h => rw [fsd_of_miss σ c now q k θ h]
  | inr h => rw [fsd_of_empty_hit σ c now q k θ h]

/-- C3 (amended): for identical repeated queries, (a) when the first call
computed its result, a later second call returns the identical list; (b) when
the first call computed a non-empty result and the second call falls inside
the 1800-second TTL window, the second call performs no backend computation;
(c) a cache miss always triggers computation, so a miss is never mistaken for
an empty result; (d) a served value always comes from an entry whose expiry
lies strictly in the future, so a stale entry is never served.  The claim's
unconditional "no second computation" fails for empty results: the truthiness
test `if cached_result:` treats a cached empty list as a miss. -/
theorem C3_cache_contract (σ : LiteState) (c : QCache) (now now2 : ℕ)
    (q : String) (k : ℕ) (θ : ℚ) :
    ((find_similar_documents σ c now q k θ).computed = true → now ≤ now2 →
      (find_similar_documents σ (find_similar_documents σ c now q k θ).cache now2 q k θ).result
        = (find_similar_documents σ c now q k θ).result)
    ∧ ((find_similar_documents σ c now q k θ).computed = true →
        (find_similar_documents σ c now q k θ).result ≠ [] → now2 < now + 1800 →
        (find_similar_documents σ (find_similar_documents σ c now q k θ).cache now2 q k θ).computed
          = false)
    ∧ (cacheGet c (cacheKey q) now = none →
        (find_similar_documents σ c now q k θ).computed = true)
    ∧ (∀ v, cacheGet c (cacheKey q) now = some v →
        ∃ e, c.lookup (cacheKey q) = some (v, e) ∧ now < e) := by
  refine ⟨?_, ?_, ?_, fun v hv => cacheGet_some_inv c (cacheKey q) now v hv⟩
  · intro hcomp hle
    rw [fsd_result_of_computed σ c now q k θ hcomp, fsd_cache_of_computed σ c now q k θ hcomp]
    by_cases hrec : σ.records = []
    · have hfb1 : (find_similar_basic σ q k θ c now).1 = [] := by
        simp [find_similar_basic, hrec]
      have hfb2 : (find_similar_basic σ q k θ c now).2 = c := by
        simp [find_similar_basic, hrec]
      rw [hfb1, hfb2]
      have hm2 : cacheGet c (cacheKey q) now2 = none ∨ cacheGet c (cacheKey q) now2 = some [] := by
        cases fsd_computed_cases σ c now q k θ hcomp with
        | inl h => exact Or.inl (cacheGet_none_mono c (cacheKey q) now now2 h hle)
        | inr h =>
          cases hget2 : cacheGet c (cacheKey q) now2 with
          | none => exact Or.inl rfl
          | some v2 =>
            have hv2 : v2 = [] := cacheGet_value_eq c (cacheKey q) now now2 [] v2 h hget2
            exact Or.inr (by rw [hv2])
      have hres2 : (find_similar_documents σ c now2 q k θ).result
          = (find_similar_basic σ q k θ c now2).1 := by
        cases hm2 with
        | inl h => rw [fsd_of_miss σ c now2 q k θ h]
        | inr h => rw [fsd_of_empty_hit σ c now2 q k θ h]
      rw [hres2]
      simp [find_similar_basic, hrec]
    · have hc2 : (find_similar_basic σ q k θ c now).2
          = cacheSet c (cacheKey q) (find_similar_basic σ q k θ c now).1 1800 now := by
        simp [find_similar_basic, hrec]
      rw [hc2]
      by_cases hw : now2 < now + 1800
      · by_cases hres : (find_similar_basic σ q k θ c now).1 = []
        · have hhit : cacheGet
              (cacheSet c (cacheKey q) (find_similar_basic σ q k θ c now).1 1800 now)
              (cacheKey q) now2 = some [] := by
            rw [cacheGet_cacheSet_same, if_pos hw, hres]
          rw [fsd_of_empty_hit σ _ now2 q k θ hhit]
          exact find_basic_fst_eq σ q k θ _ c now2 now
        · have hhit : cacheGet
              (cacheSet c (cacheKey q) (find_similar_basic σ q k θ c now).1 1800 now)
              (cacheKey q) now2 = some (find_similar_basic σ q k θ c now).1 := by
            rw [cacheGet_cacheSet_same, if_pos hw]
          rw [fsd_of_hit σ _ now2 q k θ _ hhit hres]
      · have hmiss : cacheGet
            (cacheSet c (cacheKey q) (find_similar_basic σ q k θ c now).1 1800 now)
            (cacheKey q) now2 = none := by
          rw [cacheGet_cacheSet_same, if_neg hw]
        rw [fsd_of_miss σ _ now2 q k θ hmiss]
        exact find_basic_fst_eq σ q k θ _ c now2 now
  · intro hcomp hres hw
    rw [fsd_result_of_computed σ c now q k θ hcomp] at hres
    rw [fsd_cache_of_computed σ c now q k θ hcomp]
    by_cases hrec : σ.records = []
    · exact absurd (by simp [find_similar_basic, hrec]) hres
    · have hc2 : (find_similar_basic σ q k θ c now).2
          = cacheSet c (cacheKey q) (find_similar_basic σ q k θ c now).1 1800 now := by
        simp [find_similar_basic, hrec]
      rw [hc2]
      have hhit : cacheGet
          (cacheSet c (cacheKey q) (find_similar_basic σ q k θ c now).1 1800 now)
          (cacheKey q) now2 = some (find_similar_basic σ q k θ c now).1 := by
        rw [cacheGet_cacheSet_same, if_pos hw]
      rw [fsd_of_hit σ _ now2 q k θ _ hhit hres]
  · intro h
    rw [fsd_of_miss σ c now q k θ h]

theorem C3_cache_contract_witness :
    (find_similar_documents sampleDoc
        (find_similar_documents sampleDoc [] 0 "aa bb" 5 (3/10)).cache 1 "aa bb" 5 (3/10)).computed
      = false
    ∧ (find_similar_documents sampleDoc [] 0 "aa bb" 5 (3/10)).result ≠ [] :=
  ⟨(C3_cache_contract sampleDoc [] 0 1 "aa bb" 5 (3/10)).2.1
      (by with_unfolding_all decide) (by with_unfolding_all decide) (by decide),
   by with_unfolding_all decide⟩

/-- C3 (counterexample): the claim states that a second identical query
within the TTL window performs no scorer computation.  With one indexed
document and threshold 2 the first call computes and caches the empty list;
the second identical call one second later (well inside the 1800-second TTL)
computes again, because the cached empty list fails the `if cached_result:`
truthiness test. -/
theorem C3_second_call_recomputes_empty :
    (find_similar_documents sampleDoc [] 0 "aa bb" 5 2).computed = true
    ∧ (find_similar_documents sampleDoc [] 0 "aa bb" 5 2).result = []
    ∧ (find_similar_documents sampleDoc
         (find_similar_documents sampleDoc [] 0 "aa bb" 5 2).cache 1 "aa bb" 5 2).computed = true
    ∧ (1 : ℕ) < 0 + 1800 := by
  refine ⟨by with_unfolding_all decide, by with_unfolding_all decide,
    by with_unfolding_all decide, by decide⟩

/-- C10 (amended): the cache key is derived from the query content alone, so
after a call that computed and cached a non-empty result, a second call with
the same content but any other `top_k` and threshold, within the TTL window,
returns the first call's list unchanged and performs no computation for the
new arguments. -/
theorem C10_cache_key_ignores_params (σ : LiteState) (c : QCache) (now now2 : ℕ)
    (q : String) (k1 k2 : ℕ) (θ1 θ2 : ℚ)
    (h1 : (find_similar_documents σ c now q k1 θ1).computed = true)
    (h2 : (find_similar_documents σ c now q k1 θ1).result ≠ [])
    (h3 : now2 < now + 1800) :
    (find_similar_documents σ (find_similar_documents σ c now q k1 θ1).cache now2 q k2 θ2).result
      = (find_similar_documents σ c now q k1 θ1).result
    ∧ (find_similar_documents σ (find_similar_documents σ c now q k1 θ1).cache now2 q k2 θ2).computed
      = false := by
  rw [fsd_result_of_computed σ c now q k1 θ1 h1] at h2 ⊢
  rw [fsd_cache_of_computed σ c now q k1 θ1 h1]
  by_cases hrec : σ.records = []
  · exact absurd (by simp [find_similar_basic, hrec]) h2
  · have hc2 : (find_similar_basic σ q k1 θ1 c now).2
        = cacheSet c (cacheKey q) (find_similar_basic σ q k1 θ1 c now).1 1800 now := by
      simp [find_similar_basic, hrec]
    rw [hc2]
    have hhit : cacheGet
        (cacheSet c (cacheKey q) (find_similar_basic σ q k1 θ1 c now).1 1800 now)
        (cacheKey q) now2 = some (find_similar_basic σ q k1 θ1 c now).1 := by
      rw [cacheGet_cacheSet_same, if_pos h3]
    rw [fsd_of_hit σ _ now2 q k2 θ2 _ hhit h2]
    exact ⟨rfl, rfl⟩

theorem C10_cache_key_ignores_params_witness :
    (find_similar_documents sampleDoc
        (find_similar_documents sampleDoc [] 0 "aa bb" 5 0).cache 1 "aa bb" 0 2).result
      = (find_similar_documents sampleDoc [] 0 "aa bb" 5 0).result
    ∧ (find_similar_documents sampleDoc [] 0 "aa bb" 5 0).result ≠ [] :=
  ⟨(C10_cache_key_ignores_params sampleDoc [] 0 1 "aa bb" 5 0 0 2
      (by with_unfolding_all decide) (by with_unfolding_all decide) (by decide)).1,
   by with_unfolding_all decide⟩

/-- C10 (counterexample): the claim states that whenever a result for some
content is cached, a second call with the same content and different
arguments returns the first call's cached list.  With one indexed document, a
first call at threshold 2 caches the empty list; a second call with the same
content at threshold 0 does not return that cached list but computes a
non-empty one. -/
theorem C10_cached_empty_list_not_served :
    (find_similar_documents sampleDoc [] 0 "aa bb" 5 2).result = []
    ∧ (find_similar_documents sampleDoc
         (find_similar_documents sampleDoc [] 0 "aa bb" 5 2).cache 1 "aa bb" 5 0).result ≠ [] :=
  ⟨by with_unfolding_all decide, by with_unfolding_all decide⟩
